import Mathlib

/-!
Verification development for the VectorNav ROS driver
(`src/vectornav/src/main_old.cpp`).

The file embeds, in Lean, the program pieces that the specification talks
about:

* `setCov` — the covariance-parameter loader (lines 81-93 of the source);
  `XmlRpc::XmlRpcValue` is modelled by `RpcValue`, the payload of a C++
  `double` by `ℚ` (the loader only copies values, it never computes with
  them, so any carrier with decidable equality is faithful).  A
  `ROS_ASSERT` failure (process abort) is modelled by `Option.none`.
* `resetOdom` — the reset-odometry service handler (lines 96-100), as a
  pure function on the node's global mutable state.
* `negotiateList` / `negotiate` — the baud-rate negotiation loop of `main`
  (lines 159-200).  The environment is abstracted by an oracle
  `ok : ℕ → Bool` telling, for each probe baud, whether the
  connect-and-change-baud-rate block would succeed there; the loop's
  hard-coded iteration bound `i > 8` performs exactly one left-to-right
  traversal of the 9-entry `supportedBaudrates` list, which the structural
  recursion mirrors.
* `mainTrace` — the straight-line startup sequence of `main` after
  parameter loading (lines 136-251) as a list of events, with the
  outcomes of the external SDK calls (connectivity verification, register
  writes) supplied by an `Env` oracle.  An uncaught SDK exception on a
  required register write terminates the process; this is the
  `Event.abortProcess` trailing event.
* `onPacketArrived` — the packet-to-record transformation.  The callback
  body in the source is empty; following the specification's own note the
  intended behaviour is modelled from the spec (see its doc comment).
-/

namespace Vectornav

/-! ## Covariance loading (`setCov`, source lines 81-93) -/

/-- The runtime type tags of `XmlRpc::XmlRpcValue`. -/
inductive RpcType where
  | TypeInvalid
  | TypeBoolean
  | TypeInt
  | TypeDouble
  | TypeString
  | TypeArray
deriving DecidableEq

/-- A model of `XmlRpc::XmlRpcValue`: a dynamically typed configuration
value.  `double` payloads are carried by `ℚ`. -/
inductive RpcValue where
  | invalid
  | boolean (b : Bool)
  | intVal (n : ℤ)
  | double (x : ℚ)
  | strVal (s : String)
  | array (xs : List RpcValue)

/-- `XmlRpcValue::getType()`. -/
def RpcValue.getType : RpcValue → RpcType
  | .invalid => .TypeInvalid
  | .boolean _ => .TypeBoolean
  | .intVal _ => .TypeInt
  | .double _ => .TypeDouble
  | .strVal _ => .TypeString
  | .array _ => .TypeArray

/-- The `(double)rpc[i]` cast; in the source it is only evaluated after the
`TypeDouble` assertion, so the default branch is never relevant. -/
def RpcValue.asDouble : RpcValue → ℚ
  | .double x => x
  | _ => 0

/-- `rpc[i]`: indexing an `XmlRpcValue`.  Reading past the end of an array
yields a freshly grown `TypeInvalid` entry (the non-const
`XmlRpcValue::operator[]` grows the array with invalid entries), and the
source only indexes after asserting `TypeArray`. -/
def rpcIndex (rpc : RpcValue) (i : ℕ) : RpcValue :=
  match rpc with
  | .array xs => xs.getD i .invalid
  | _ => .invalid

/-- The `for(int i = 0; i < 9; i++)` body of `setCov`: read entries
`i, i+1, …` while `fuel` lasts, asserting each is a `TypeDouble`.
`none` models a `ROS_ASSERT` failure (process abort). -/
def readNine (rpc : RpcValue) : ℕ → ℕ → Option (List ℚ)
  | _, 0 => some []
  | i, fuel + 1 =>
    if (rpcIndex rpc i).getType = RpcType.TypeDouble then
      match readNine rpc (i + 1) fuel with
      | some rest => some ((rpcIndex rpc i).asDouble :: rest)
      | none => none
    else none

/-- `setCov` (source lines 81-93): assert the parameter is an array, then
copy its first nine entries — each asserted to be a `double` — into the
row-major 3×3 covariance array.  `none` models a `ROS_ASSERT` failure. -/
def setCov (rpc : RpcValue) : Option (List ℚ) :=
  if rpc.getType = RpcType.TypeArray then readNine rpc 0 9 else none

/-! ## Node global state and `resetOdom` (source lines 71-78 and 96-100) -/

/-- The driver's global mutable state: the frame parameters, the three
covariance arrays, and the odometry origin (`initial_position`,
`initial_position_set`). -/
structure NodeState where
  frame_id : String
  tf_ned_to_enu : Bool
  frame_based_enu : Bool
  linear_accel_covariance : List ℚ
  angular_vel_covariance : List ℚ
  orientation_covariance : List ℚ
  initial_position : ℚ × ℚ × ℚ
  initial_position_set : Bool
deriving DecidableEq

/-- `resetOdom` (source lines 96-100): the `reset_odom` service handler.
It sets `initial_position_set = false` and returns `true`; the request and
response of `std_srvs::Empty` carry no data and are omitted. -/
def resetOdom (s : NodeState) : NodeState × Bool :=
  ({ s with initial_position_set := false }, true)

/-! ## Baud-rate negotiation (source lines 159-200) -/

/-- The fixed candidate list returned by `vs.supportedBaudrates()`, in the
order documented by the source's own comment at line 170:
9600, 19200, 38400, 57600, 128000, 115200, 230400, 460800, 921600. -/
def supportedBaudrates : List ℕ :=
  [9600, 19200, 38400, 57600, 128000, 115200, 230400, 460800, 921600]

/-- One traversal of the negotiation loop over the remaining candidates.
For each candidate `b`: if `b != 128000 && sb != 128000` (the guard at
source line 175), a connect-and-change-baud-rate attempt is made, whose
success the oracle `ok b` reports; success stops the loop, failure
(`catch`: disconnect, settle 200 ms) moves to the next candidate, and a
skipped candidate is not attempted.  Returns the probe bauds attempted, in
order, and whether the loop set `baudSet`.  The `i > 8` break bound of the
source equals one full traversal of the 9-entry candidate list. -/
def negotiateList (sb : ℕ) (ok : ℕ → Bool) : List ℕ → List ℕ × Bool
  | [] => ([], false)
  | b :: rest =>
    if b != 128000 && sb != 128000 then
      if ok b then ([b], true)
      else (b :: (negotiateList sb ok rest).1, (negotiateList sb ok rest).2)
    else negotiateList sb ok rest

/-- The whole negotiation loop (`while(!baudSet)` with `static int i = 0`),
run over `supportedBaudrates` with requested baud `sb`. -/
def negotiate (sb : ℕ) (ok : ℕ → Bool) : List ℕ × Bool :=
  negotiateList sb ok supportedBaudrates

/-- The candidates the guard at source line 175 allows an attempt for. -/
def eligible (sb : ℕ) (l : List ℕ) : List ℕ :=
  l.filter fun b => b != 128000 && sb != 128000

/-- The candidates actually attempted when trying eligible candidates in
order and stopping at the first success. -/
def firstAttempts (ok : ℕ → Bool) : List ℕ → List ℕ
  | [] => []
  | b :: rest => if ok b then [b] else b :: firstAttempts ok rest

lemma negotiateList_eq (sb : ℕ) (ok : ℕ → Bool) :
    ∀ l : List ℕ,
      negotiateList sb ok l =
        (firstAttempts ok (eligible sb l), (eligible sb l).any ok) := by
  intro l
  induction l with
  | nil => rfl
  | cons b rest ih =>
    cases hcond : (b != 128000 && sb != 128000) with
    | false =>
      rw [show negotiateList sb ok (b :: rest) = negotiateList sb ok rest from by
          simp [negotiateList, hcond]]
      rw [ih]
      simp [eligible, List.filter_cons, hcond]
    | true =>
      cases hok : ok b with
      | true =>
        rw [show negotiateList sb ok (b :: rest) = ([b], true) from by
            simp [negotiateList, hcond, hok]]
        simp [eligible, List.filter_cons, firstAttempts, hcond, hok]
      | false =>
        rw [show negotiateList sb ok (b :: rest)
              = (b :: (negotiateList sb ok rest).1, (negotiateList sb ok rest).2) from by
            simp [negotiateList, hcond, hok]]
        rw [ih]
        simp [eligible, List.filter_cons, firstAttempts, hcond, hok]

lemma firstAttempts_take (ok : ℕ → Bool) :
    ∀ l : List ℕ, ∃ k, firstAttempts ok l = l.take k := by
  intro l
  induction l with
  | nil => exact ⟨0, rfl⟩
  | cons b rest ih =>
    cases hok : ok b with
    | true => exact ⟨1, by simp [firstAttempts, hok]⟩
    | false =>
      obtain ⟨k, hk⟩ := ih
      exact ⟨k + 1, by simp [firstAttempts, hok, hk]⟩

lemma firstAttempts_success (ok : ℕ → Bool) :
    ∀ l : List ℕ, l.any ok = true →
      ∃ pre b, firstAttempts ok l = pre ++ [b] ∧ ok b = true ∧
        ∀ a ∈ pre, ok a = false := by
  intro l
  induction l with
  | nil => intro h; simp at h
  | cons c rest ih =>
    intro h
    cases hok : ok c with
    | true => exact ⟨[], c, by simp [firstAttempts, hok], hok, by simp⟩
    | false =>
      have hr : rest.any ok = true := by simpa [hok] using h
      obtain ⟨pre, b, h1, h2, h3⟩ := ih hr
      refine ⟨c :: pre, b, by simp [firstAttempts, hok, h1], h2, ?_⟩
      intro a ha
      rcases List.mem_cons.mp ha with rfl | ha
      · exact hok
      · exact h3 a ha

lemma firstAttempts_failure (ok : ℕ → Bool) :
    ∀ l : List ℕ, l.any ok = false →
      firstAttempts ok l = l ∧ ∀ a ∈ l, ok a = false := by
  intro l
  induction l with
  | nil => intro _; exact ⟨rfl, by simp⟩
  | cons c rest ih =>
    intro h
    have hc : ok c = false := by
      cases hok : ok c
      · rfl
      · simp [hok] at h
    have hr : rest.any ok = false := by simpa [hc] using h
    obtain ⟨h1, h2⟩ := ih hr
    refine ⟨by simp [firstAttempts, hc, h1], ?_⟩
    intro a ha
    rcases List.mem_cons.mp ha with rfl | ha
    · exact hc
    · exact h2 a ha

lemma eligible_incompatible (l : List ℕ) : eligible 128000 l = [] := by
  induction l with
  | nil => rfl
  | cons b rest ih => simp [eligible, List.filter_cons]

/-! ## Stream configuration and the startup sequence of `main`
(source lines 136-251) -/

/-- `vn::protocol::uart` flag constants used at source lines 228-245, with
the bit assignments of the VectorNav binary-output group tables
(`vn/protocol/uart/types.h`). -/
def ASYNCMODE_PORT1 : ℕ := 1

def COMMONGROUP_QUATERNION : ℕ := 0x0010

def COMMONGROUP_ANGULARRATE : ℕ := 0x0020

def COMMONGROUP_POSITION : ℕ := 0x0040

def COMMONGROUP_ACCEL : ℕ := 0x0100

def COMMONGROUP_MAGPRES : ℕ := 0x0400

def TIMEGROUP_NONE : ℕ := 0

def IMUGROUP_NONE : ℕ := 0

def GPSGROUP_NONE : ℕ := 0

def ATTITUDEGROUP_YPRU : ℕ := 0x0100

def INSGROUP_INSSTATUS : ℕ := 0x0001

def INSGROUP_POSLLA : ℕ := 0x0002

def INSGROUP_POSECEF : ℕ := 0x0004

def INSGROUP_VELBODY : ℕ := 0x0008

def INSGROUP_ACCELECEF : ℕ := 0x0080

/-- The `BinaryOutputRegister` value of the sensor SDK, in the argument
order of the constructor call at source lines 228-245. -/
structure BinaryOutputRegister where
  asyncMode : ℕ
  rateDivisor : ℕ
  commonField : ℕ
  timeField : ℕ
  imuField : ℕ
  gpsField : ℕ
  attitudeField : ℕ
  insField : ℕ
  gps2Field : ℕ
deriving DecidableEq

/-- `struct UserData` (source lines 53-55): the context object passed to
the packet callback. -/
structure UserData where
  device_family : ℕ
deriving DecidableEq

/-- The configuration parameters of `main` relevant to the startup
sequence, with the source's defaults (lines 128-148): `async_output_rate`
(40), `serial_baud` (115200), `fixed_imu_rate` (800), and the three
optional covariance parameters (unset by default). -/
structure Config where
  asyncOutputRate : ℕ
  serialBaud : ℕ
  fixedImuRate : ℕ
  linearAccelCov : Option RpcValue
  angularVelCov : Option RpcValue
  orientationCov : Option RpcValue

/-- The environment of one run of `main`: outcomes of the external SDK
calls.  `connectOk b` tells whether the connect-and-change-baud-rate block
succeeds when probing at baud `b`; `verifyOk` is the result of
`verifySensorConnectivity`; the three write flags tell whether each
required register write is accepted (a rejected write raises an exception
that `main` does not catch). -/
structure Env where
  connectOk : ℕ → Bool
  verifyOk : Bool
  deviceFamily : ℕ
  writeFreqOk1 : Bool
  writeBorOk : Bool
  writeFreqOk2 : Bool

/-- Observable actions of the startup sequence of `main`. -/
inductive Event where
  | connectAttempt (probe target : ℕ)
  | verifyConnectivity
  | logDeviceEstablished
  | logNoDeviceComm (validRates : List ℕ)
  | readModelNumber
  | readFirmwareVersion
  | readHardwareRevision
  | readSerialNumber
  | determineDeviceFamily
  | writeAsyncFreq (hz : ℕ)
  | writeBinaryOutput (bor : BinaryOutputRegister)
  | registerHandler (u : UserData)
  | abortProcess
deriving DecidableEq

/-- `if(pn.getParam(..., rpc_temp)) { ... = setCov(rpc_temp); }`: an unset
parameter is skipped; a set parameter whose `setCov` asserts is an abort. -/
def covParamOk : Option RpcValue → Bool
  | none => true
  | some v => (setCov v).isSome

/-- Whether the three covariance-loading calls at source lines 136-148 all
pass their assertions. -/
def covPhaseOk (cfg : Config) : Bool :=
  covParamOk cfg.linearAccelCov && covParamOk cfg.angularVelCov &&
    covParamOk cfg.orientationCov

/-- The connect attempts of the negotiation loop as trace events; every
attempt probes at a candidate baud and targets the requested
`serial_baud` (lines 177-180). -/
def negotEvents (cfg : Config) (env : Env) : List Event :=
  (negotiate cfg.serialBaud env.connectOk).1.map fun b =>
    Event.connectAttempt b cfg.serialBaud

/-- The baud-rate list printed by the `ROS_WARN` at source line 209. -/
def validBaudsWarned : List ℕ :=
  [9600, 19200, 38400, 57600, 115200, 128000, 230400, 460800, 921600]

/-- The connectivity post-check at source lines 202-211: verify, then
either log success or log the no-communication diagnostic with the list of
valid baud rates; neither branch exits. -/
def verifyEvents (env : Env) : List Event :=
  Event.verifyConnectivity ::
    (if env.verifyOk then [Event.logDeviceEstablished]
     else [Event.logNoDeviceComm validBaudsWarned])

/-- The identity reads at source lines 213-216. -/
def identityReadEvents : List Event :=
  [Event.readModelNumber, Event.readFirmwareVersion,
   Event.readHardwareRevision, Event.readSerialNumber]

/-- The `BinaryOutputRegister` built at source lines 228-245: port-1 async
mode, rate divisor `SensorImuRate / async_output_rate` (C++ integer
division), and the enabled field groups. -/
def mainBor (cfg : Config) : BinaryOutputRegister :=
  { asyncMode := ASYNCMODE_PORT1
    rateDivisor := cfg.fixedImuRate / cfg.asyncOutputRate
    commonField := COMMONGROUP_QUATERNION ||| COMMONGROUP_ANGULARRATE |||
      COMMONGROUP_POSITION ||| COMMONGROUP_ACCEL ||| COMMONGROUP_MAGPRES
    timeField := TIMEGROUP_NONE
    imuField := IMUGROUP_NONE
    gpsField := GPSGROUP_NONE
    attitudeField := ATTITUDEGROUP_YPRU
    insField := INSGROUP_INSSTATUS ||| INSGROUP_POSLLA ||| INSGROUP_POSECEF |||
      INSGROUP_VELBODY ||| INSGROUP_ACCELECEF
    gps2Field := GPSGROUP_NONE }

/-- The stream-configuration writes at source lines 225-251, in program
order: write the async output frequency, write binary-output register 1,
write the async output frequency again, register the packet callback with
the `UserData` context.  A rejected write raises an exception that `main`
does not catch, terminating the process (`Event.abortProcess`). -/
def streamConfigEvents (cfg : Config) (env : Env) : List Event :=
  Event.writeAsyncFreq cfg.asyncOutputRate ::
    (if env.writeFreqOk1 then
      Event.writeBinaryOutput (mainBor cfg) ::
        (if env.writeBorOk then
          Event.writeAsyncFreq cfg.asyncOutputRate ::
            (if env.writeFreqOk2 then
              [Event.registerHandler { device_family := env.deviceFamily }]
             else [Event.abortProcess])
         else [Event.abortProcess])
     else [Event.abortProcess])

/-- The startup sequence of `main` (source lines 136-251) as a trace: the
covariance-loading phase (a failed `ROS_ASSERT` aborts before any sensor
I/O), then the negotiation loop, the connectivity post-check, the identity
reads, `determineDeviceFamily`, and the stream-configuration writes. -/
def mainTrace (cfg : Config) (env : Env) : List Event :=
  if covPhaseOk cfg then
    negotEvents cfg env ++ verifyEvents env ++ identityReadEvents ++
      [Event.determineDeviceFamily] ++ streamConfigEvents cfg env
  else [Event.abortProcess]

/-! ## Packet transformation (spec-modelled) -/

/-- Modelled from the spec: the packet-to-record transformation of
`BinaryAsyncMessageReceived` is missing from the source (the callback body
at lines 274-280 only parses the packet and casts the user data; the
spec's design notes state the transformation is left unimplemented and
that §4.4 is the intended contract).  A decoded packet is abstracted by
which measurement categories' constituent fields are present. -/
structure PacketFields where
  hasImuFields : Bool
  hasMagFields : Bool
  hasGpsFields : Bool
  hasTempFields : Bool
  hasPresFields : Bool
  hasOdomFields : Bool
deriving DecidableEq

/-- Modelled from the spec: the output record categories of §4.4 step 5 —
IMU, magnetic field, GPS fix, temperature, pressure, odometry. -/
inductive Record where
  | imu
  | mag
  | gpsFix
  | temp
  | pres
  | odom
deriving DecidableEq

/-- Modelled from the spec: §4.4 step 5 — emit one record per measurement
category whose constituent fields are present in the packet; absence of a
category's fields suppresses that record for the cycle. -/
def onPacketArrived (p : PacketFields) : List Record :=
  (if p.hasImuFields then [Record.imu] else []) ++
    (if p.hasMagFields then [Record.mag] else []) ++
    (if p.hasGpsFields then [Record.gpsFix] else []) ++
    (if p.hasTempFields then [Record.temp] else []) ++
    (if p.hasPresFields then [Record.pres] else []) ++
    (if p.hasOdomFields then [Record.odom] else [])

/-- Whether the packet carries the constituent fields of a category. -/
def recordPresent (p : PacketFields) : Record → Bool
  | .imu => p.hasImuFields
  | .mag => p.hasMagFields
  | .gpsFix => p.hasGpsFields
  | .temp => p.hasTempFields
  | .pres => p.hasPresFields
  | .odom => p.hasOdomFields

/-! ## Concrete configurations and environments used by witnesses and
counterexamples -/

/-- The source's default configuration: `async_output_rate` 40,
`serial_baud` 115200, `fixed_imu_rate` 800, covariance parameters unset. -/
def cfgDefault : Config :=
  { asyncOutputRate := 40, serialBaud := 115200, fixedImuRate := 800,
    linearAccelCov := none, angularVelCov := none, orientationCov := none }

/-- Default configuration with the non-divisible rate 33 of the spec's
scenario. -/
def cfg33 : Config := { cfgDefault with asyncOutputRate := 33 }

/-- Default configuration with an async rate above the IMU rate. -/
def cfg1000 : Config := { cfgDefault with asyncOutputRate := 1000 }

/-- A three-entry covariance parameter (too short). -/
def covRpc3 : RpcValue :=
  RpcValue.array [RpcValue.double 1, RpcValue.double 2, RpcValue.double 3]

/-- Default configuration with a malformed (three-entry) covariance
parameter. -/
def cfgBadCov : Config := { cfgDefault with linearAccelCov := some covRpc3 }

/-- An environment in which every SDK call succeeds. -/
def envAllOk : Env :=
  { connectOk := fun _ => true, verifyOk := true, deviceFamily := 1,
    writeFreqOk1 := true, writeBorOk := true, writeFreqOk2 := true }

/-- An environment in which the first output-frequency write is rejected. -/
def envFreqFail : Env := { envAllOk with writeFreqOk1 := false }

/-- A device whose current rate is 115200: only a probe at 115200
succeeds. -/
def okAt115200 : ℕ → Bool := fun b => b == 115200

/-- Nine double values, a well-formed covariance parameter. -/
def nineVals : List ℚ := [1, 2, 3, 4, 5, 6, 7, 8, 9]

/-- Ten double values, for the over-long covariance array cases. -/
def tenVals : List ℚ := [0, 1, 2, 3, 4, 5, 6, 7, 8, 9]

/-- A second ten-entry list of double values. -/
def tenVals2 : List ℚ := [1, 2, 3, 4, 5, 6, 7, 8, 9, 10]

/-- Default configuration whose linear-acceleration covariance parameter
is a ten-entry double array. -/
def cfgTenCov : Config :=
  { cfgDefault with
    linearAccelCov := some (RpcValue.array (tenVals.map RpcValue.double)) }

/-- A packet carrying GPS fields and nothing else. -/
def pGpsOnly : PacketFields :=
  { hasImuFields := false, hasMagFields := false, hasGpsFields := true,
    hasTempFields := false, hasPresFields := false, hasOdomFields := false }

/-! ## Helper lemmas -/

lemma readNine_none (rpc : RpcValue) :
    ∀ fuel i j : ℕ, i ≤ j → j < i + fuel →
      (rpcIndex rpc j).getType ≠ RpcType.TypeDouble →
      readNine rpc i fuel = none := by
  intro fuel
  induction fuel with
  | zero => intro i j h1 h2 h3; omega
  | succ n ih =>
    intro i j h1 h2 h3
    by_cases hi : (rpcIndex rpc i).getType = RpcType.TypeDouble
    · have hij : i ≠ j := by
        intro e
        exact h3 (e ▸ hi)
      have hrec : readNine rpc (i + 1) n = none :=
        ih (i + 1) j (by omega) (by omega) h3
      simp [readNine, hi, hrec]
    · simp [readNine, hi]

lemma count_onPacketArrived (p : PacketFields) (c : Record) :
    (onPacketArrived p).count c = if recordPresent p c then 1 else 0 := by
  rcases p with ⟨fi, fm, fg, ft, fp, fo⟩
  cases c <;> cases fi <;> cases fm <;> cases fg <;> cases ft <;> cases fp <;>
    cases fo <;> rfl

/-! ## Claims -/

/-- C6: for every valid 9-element numeric input, `setCov` reconstructs the
row-major covariance array exactly from its flattened form — each output
entry equals the corresponding input entry, so the loader round-trips. -/
theorem claim_C6_roundtrip (qs : List ℚ) (h : qs.length = 9) :
    setCov (RpcValue.array (qs.map RpcValue.double)) = some qs := by
  rcases qs with _ | ⟨a, qs⟩
  · simp only [List.length_cons, List.length_nil] at h; omega
  rcases qs with _ | ⟨b, qs⟩
  · simp only [List.length_cons, List.length_nil] at h; omega
  rcases qs with _ | ⟨c, qs⟩
  · simp only [List.length_cons, List.length_nil] at h; omega
  rcases qs with _ | ⟨d, qs⟩
  · simp only [List.length_cons, List.length_nil] at h; omega
  rcases qs with _ | ⟨e, qs⟩
  · simp only [List.length_cons, List.length_nil] at h; omega
  rcases qs with _ | ⟨f, qs⟩
  · simp only [List.length_cons, List.length_nil] at h; omega
  rcases qs with _ | ⟨g, qs⟩
  · simp only [List.length_cons, List.length_nil] at h; omega
  rcases qs with _ | ⟨x, qs⟩
  · simp only [List.length_cons, List.length_nil] at h; omega
  rcases qs with _ | ⟨y, qs⟩
  · simp only [List.length_cons, List.length_nil] at h; omega
  rcases qs with _ | ⟨z, qs⟩
  · rfl
  · exfalso
    simp only [List.length_cons] at h
    omega

/-- C6 witness: the round-trip at the concrete input `[1, …, 9]`. -/
theorem claim_C6_witness :
    setCov (RpcValue.array (nineVals.map RpcValue.double)) = some nineVals :=
  claim_C6_roundtrip nineVals rfl

/-- C10: a numeric configuration array longer than nine entries raises no
error — `setCov` succeeds and returns the array built from the first nine
entries only, silently ignoring the rest. -/
theorem claim_C10_long_arrays (qs : List ℚ) (h : 9 < qs.length) :
    setCov (RpcValue.array (qs.map RpcValue.double)) = some (qs.take 9) := by
  rcases qs with _ | ⟨a, qs⟩
  · simp only [List.length_cons, List.length_nil] at h; omega
  rcases qs with _ | ⟨b, qs⟩
  · simp only [List.length_cons, List.length_nil] at h; omega
  rcases qs with _ | ⟨c, qs⟩
  · simp only [List.length_cons, List.length_nil] at h; omega
  rcases qs with _ | ⟨d, qs⟩
  · simp only [List.length_cons, List.length_nil] at h; omega
  rcases qs with _ | ⟨e, qs⟩
  · simp only [List.length_cons, List.length_nil] at h; omega
  rcases qs with _ | ⟨f, qs⟩
  · simp only [List.length_cons, List.length_nil] at h; omega
  rcases qs with _ | ⟨g, qs⟩
  · simp only [List.length_cons, List.length_nil] at h; omega
  rcases qs with _ | ⟨x, qs⟩
  · simp only [List.length_cons, List.length_nil] at h; omega
  rcases qs with _ | ⟨y, qs⟩
  · simp only [List.length_cons, List.length_nil] at h; omega
  rfl

/-- C10 witness: a concrete ten-entry double array parses to its first
nine entries. -/
theorem claim_C10_witness :
    setCov (RpcValue.array (tenVals2.map RpcValue.double)) =
      some (tenVals2.take 9) :=
  claim_C10_long_arrays tenVals2 (by decide)

/-- C5 counterexample: a ten-entry double array violates the claimed
precondition "exactly 9 numeric entries" (it has wrong length), yet
`setCov` does not abort — it succeeds, and startup continues past the
covariance phase instead of stopping, so not every precondition violation
is a fatal configuration error. -/
theorem claim_C5_counterexample :
    (tenVals.map RpcValue.double).length = 10 ∧
      setCov (RpcValue.array (tenVals.map RpcValue.double)) ≠ none ∧
      covPhaseOk cfgTenCov = true ∧
      mainTrace cfgTenCov envAllOk ≠ [Event.abortProcess] := by
  refine ⟨by decide, by decide, by decide, ?_⟩
  decide

/-- C5 (amended): a covariance parameter that is not an array, or whose
first nine indexed entries are not all doubles (which includes every array
shorter than nine entries, since reading past the end yields `TypeInvalid`
entries), fails a `ROS_ASSERT`; when such a parameter is configured the
process aborts before any sensor I/O — the startup trace is just the
abort, with no connect attempt, read, or write.  (Entries beyond the
ninth are never examined, so an over-long array is not a violation.) -/
theorem claim_C5_amended (rpc : RpcValue) (cfg : Config) (env : Env)
    (hbad : rpc.getType ≠ RpcType.TypeArray ∨
      ∃ j, j < 9 ∧ (rpcIndex rpc j).getType ≠ RpcType.TypeDouble)
    (hcfg : cfg.linearAccelCov = some rpc ∨ cfg.angularVelCov = some rpc ∨
      cfg.orientationCov = some rpc) :
    setCov rpc = none ∧ mainTrace cfg env = [Event.abortProcess] := by
  have hnone : setCov rpc = none := by
    rcases hbad with h | ⟨j, hj, hb⟩
    · simp [setCov, h]
    · by_cases ha : rpc.getType = RpcType.TypeArray
      · have : readNine rpc 0 9 = none :=
          readNine_none rpc 9 0 j (Nat.zero_le j) (by omega) hb
        simp [setCov, ha, this]
      · simp [setCov, ha]
  have hcov : covPhaseOk cfg = false := by
    rcases hcfg with h | h | h <;> simp [covPhaseOk, covParamOk, h, hnone]
  exact ⟨hnone, by simp [mainTrace, hcov]⟩

/-- C5 witness: a three-entry covariance array is fatal — `setCov`
asserts, and the startup trace is a bare abort with no sensor I/O. -/
theorem claim_C5_witness :
    setCov covRpc3 = none ∧ mainTrace cfgBadCov envAllOk = [Event.abortProcess] :=
  claim_C5_amended covRpc3 cfgBadCov envAllOk
    (Or.inr ⟨3, by decide, by decide⟩) (Or.inl rfl)

/-- C7: `resetOdom` always returns success, only clears
`initial_position_set`, leaves every other part of the node state — in
particular the stored origin position — unchanged, and calling it twice in
a row has the same effect as calling it once. -/
theorem claim_C7_resetOdom (s : NodeState) :
    resetOdom s = ({ s with initial_position_set := false }, true) ∧
    (resetOdom s).2 = true ∧
    (resetOdom s).1.initial_position_set = false ∧
    (resetOdom s).1.initial_position = s.initial_position ∧
    (resetOdom s).1.frame_id = s.frame_id ∧
    (resetOdom s).1.tf_ned_to_enu = s.tf_ned_to_enu ∧
    (resetOdom s).1.frame_based_enu = s.frame_based_enu ∧
    (resetOdom s).1.linear_accel_covariance = s.linear_accel_covariance ∧
    (resetOdom s).1.angular_vel_covariance = s.angular_vel_covariance ∧
    (resetOdom s).1.orientation_covariance = s.orientation_covariance ∧
    resetOdom (resetOdom s).1 = resetOdom s :=
  ⟨rfl, rfl, rfl, rfl, rfl, rfl, rfl, rfl, rfl, rfl, rfl⟩

/-- C9 (spec-modelled): a packet carrying only GPS fields yields exactly
one GPS-fix record and zero IMU records, and in general the absence of a
category's constituent fields suppresses that category's record for the
cycle. -/
theorem claim_C9_gps_only (p : PacketFields) (h1 : p.hasGpsFields = true)
    (h2 : p.hasImuFields = false) :
    (onPacketArrived p).count Record.gpsFix = 1 ∧
    (onPacketArrived p).count Record.imu = 0 ∧
    ∀ c : Record, recordPresent p c = false →
      (onPacketArrived p).count c = 0 := by
  refine ⟨?_, ?_, ?_⟩
  · rw [count_onPacketArrived]
    simp [recordPresent, h1]
  · rw [count_onPacketArrived]
    simp [recordPresent, h2]
  · intro c hc
    rw [count_onPacketArrived]
    simp [hc]

/-- C9 witness: the concrete GPS-only packet gives one GPS-fix record and
no IMU record. -/
theorem claim_C9_witness :
    (onPacketArrived pGpsOnly).count Record.gpsFix = 1 ∧
      (onPacketArrived pGpsOnly).count Record.imu = 0 :=
  ⟨(claim_C9_gps_only pGpsOnly rfl rfl).1,
   (claim_C9_gps_only pGpsOnly rfl rfl).2.1⟩

/-- C2: when the requested serial baud is the known-incompatible 128000,
the guard at source line 175 is false on every iteration, so the
negotiation loop performs no connect attempt at all — in particular none
using 128000 as either the probe or the target baud. -/
theorem claim_C2_incompatible (sb : ℕ) (ok : ℕ → Bool) (h : sb = 128000) :
    (negotiate sb ok).1 = [] := by
  subst h
  simp [negotiate, negotiateList_eq, eligible_incompatible, firstAttempts]

/-- C2 witness: even with a device that would answer every probe, a
requested baud of 128000 produces no connect attempt. -/
theorem claim_C2_witness : (negotiate 128000 envAllOk.connectOk).1 = [] :=
  claim_C2_incompatible 128000 envAllOk.connectOk rfl

/-- C1 counterexample: with the default requested baud 115200 and a device
answering only at probe 115200, the loop succeeds after attempting
[9600, 19200, 38400, 57600, 115200] — the ineligible candidate 128000 (at
index 4 of the list) is skipped, so the attempted candidates are not a
prefix of the candidate list up to and including the success index
(index 5): they differ from `take 5` and from `take 6`, the only prefixes
of compatible length. -/
theorem claim_C1_counterexample :
    (negotiate 115200 okAt115200).2 = true ∧
    (negotiate 115200 okAt115200).1 = [9600, 19200, 38400, 57600, 115200] ∧
    (negotiate 115200 okAt115200).1 ≠ supportedBaudrates.take 5 ∧
    (negotiate 115200 okAt115200).1 ≠ supportedBaudrates.take 6 := by
  decide

/-- C1 (amended): per run of the negotiation loop every candidate is
attempted at most once (the attempt list has no duplicates), attempts
proceed in list order (the attempt list is a sublist of the candidate
list), the loop stops at the first successful attempt, the loop terminates
after at most 9 = |candidates| attempts, and the attempted candidates form
a prefix not of the raw candidate list but of the eligible sub-list — the
candidate list with the 128000 exclusions of the guard removed. -/
theorem claim_C1_amended (sb : ℕ) (ok : ℕ → Bool) :
    (∃ k, (negotiate sb ok).1 = (eligible sb supportedBaudrates).take k) ∧
    List.Sublist (negotiate sb ok).1 supportedBaudrates ∧
    (negotiate sb ok).1.Nodup ∧
    (negotiate sb ok).1.length ≤ supportedBaudrates.length ∧
    ((negotiate sb ok).2 = true →
      ∃ pre b, (negotiate sb ok).1 = pre ++ [b] ∧ ok b = true ∧
        ∀ a ∈ pre, ok a = false) ∧
    ((negotiate sb ok).2 = false → ∀ a ∈ (negotiate sb ok).1, ok a = false) := by
  have h1 : (negotiate sb ok).1 = firstAttempts ok (eligible sb supportedBaudrates) := by
    rw [negotiate, negotiateList_eq]
  have h2 : (negotiate sb ok).2 = (eligible sb supportedBaudrates).any ok := by
    rw [negotiate, negotiateList_eq]
  obtain ⟨k, hk⟩ := firstAttempts_take ok (eligible sb supportedBaudrates)
  have hsubE : List.Sublist (negotiate sb ok).1 (eligible sb supportedBaudrates) := by
    rw [h1, hk]
    exact List.take_sublist _ _
  have hsubS : List.Sublist (negotiate sb ok).1 supportedBaudrates :=
    hsubE.trans (List.filter_sublist _)
  refine ⟨⟨k, by rw [h1, hk]⟩, hsubS, hsubS.nodup (by decide), hsubS.length_le,
    ?_, ?_⟩
  · intro hs
    rw [h2] at hs
    obtain ⟨pre, b, hab, hb, hpre⟩ := firstAttempts_success ok _ hs
    exact ⟨pre, b, by rw [h1, hab], hb, hpre⟩
  · intro hs a ha
    rw [h2] at hs
    rw [h1, (firstAttempts_failure ok _ hs).1] at ha
    exact (firstAttempts_failure ok _ hs).2 a ha

/-- C1 witness: the amended bounds at the counterexample's run — the
attempts are in list order and number at most the list length. -/
theorem claim_C1_witness :
    List.Sublist (negotiate 115200 okAt115200).1 supportedBaudrates ∧
      (negotiate 115200 okAt115200).1.length ≤ supportedBaudrates.length :=
  ⟨(claim_C1_amended 115200 okAt115200).2.1,
   (claim_C1_amended 115200 okAt115200).2.2.2.1⟩

/-- C3: after the negotiation loop — whatever its outcome, which only
changes the `connectAttempt` prefix — the startup performs the explicit
connectivity verification; when it fails the trace records the diagnostic
listing the valid baud rates, and the steps after the check are exactly
the same as on success (identity reads, device-family query, stream
configuration): the failed check aborts nothing, and when the register
writes are accepted no abort happens at all. -/
theorem claim_C3_postcheck (cfg : Config) (env : Env)
    (h : covPhaseOk cfg = true) :
    mainTrace cfg { env with verifyOk := false } =
      negotEvents cfg env ++
        [Event.verifyConnectivity, Event.logNoDeviceComm validBaudsWarned] ++
        identityReadEvents ++ [Event.determineDeviceFamily] ++
        streamConfigEvents cfg env ∧
    mainTrace cfg { env with verifyOk := true } =
      negotEvents cfg env ++
        [Event.verifyConnectivity, Event.logDeviceEstablished] ++
        identityReadEvents ++ [Event.determineDeviceFamily] ++
        streamConfigEvents cfg env ∧
    (env.writeFreqOk1 = true → env.writeBorOk = true → env.writeFreqOk2 = true →
      Event.abortProcess ∉ mainTrace cfg { env with verifyOk := false }) := by
  refine ⟨?_, ?_, ?_⟩
  · simp [mainTrace, h, verifyEvents, negotEvents, streamConfigEvents]
  · simp [mainTrace, h, verifyEvents, negotEvents, streamConfigEvents]
  · intro h1 h2 h3
    simp [mainTrace, h, verifyEvents, negotEvents, identityReadEvents,
      streamConfigEvents, h1, h2, h3]

/-- C3 witness: with the default configuration and all writes accepted, a
failed connectivity verification does not abort the process. -/
theorem claim_C3_witness :
    Event.abortProcess ∉ mainTrace cfgDefault { envAllOk with verifyOk := false } :=
  (claim_C3_postcheck cfgDefault envAllOk rfl).2.2 rfl rfl rfl

/-- C4 counterexample: for `fixed_imu_rate = 800` and
`async_output_rate = 33`, the rate divisor written into the binary-output
register is the truncated quotient 24 even though 33 does not divide 800;
the configuration is sent to the device and nothing is rejected or
aborted.  And for `async_output_rate = 1000` the written divisor is 0 —
not a positive integer — and it is still sent. -/
theorem claim_C4_counterexample :
    (mainBor cfg33).rateDivisor = 24 ∧
    33 * 24 ≠ 800 ∧
    Event.writeBinaryOutput (mainBor cfg33) ∈ mainTrace cfg33 envAllOk ∧
    Event.abortProcess ∉ mainTrace cfg33 envAllOk ∧
    (mainBor cfg1000).rateDivisor = 0 ∧
    Event.writeBinaryOutput (mainBor cfg1000) ∈ mainTrace cfg1000 envAllOk := by
  decide

/-- C4 (amended): the device update period written into the binary-output
register is the truncating integer division
`fixed_imu_rate / async_output_rate`, and the value is sent without any
divisibility check — no rejection or rounding policy exists.  Only when
the async rate divides the IMU rate (as in the default pair 800/40, where
the period is exactly 20) is the written period the exact quotient, and it
is positive exactly when the rates are positive. -/
theorem claim_C4_amended (cfg : Config) (env : Env)
    (h : covPhaseOk cfg = true) (h1 : env.writeFreqOk1 = true) :
    Event.writeBinaryOutput (mainBor cfg) ∈ mainTrace cfg env ∧
    (mainBor cfg).rateDivisor = cfg.fixedImuRate / cfg.asyncOutputRate ∧
    (cfg.asyncOutputRate ∣ cfg.fixedImuRate → 0 < cfg.asyncOutputRate →
      (mainBor cfg).rateDivisor * cfg.asyncOutputRate = cfg.fixedImuRate ∧
      (0 < cfg.fixedImuRate → 0 < (mainBor cfg).rateDivisor)) := by
  refine ⟨?_, rfl, ?_⟩
  · simp [mainTrace, h, streamConfigEvents, h1]
  · intro hdvd hpos
    exact ⟨Nat.div_mul_cancel hdvd,
      fun him => Nat.div_pos (Nat.le_of_dvd him hdvd) hpos⟩

/-- C4 witness: at the default pair (800, 40) the written update period is
exactly 20 and the register write occurs. -/
theorem claim_C4_witness :
    Event.writeBinaryOutput (mainBor cfgDefault) ∈ mainTrace cfgDefault envAllOk ∧
      (mainBor cfgDefault).rateDivisor = 20 :=
  ⟨(claim_C4_amended cfgDefault envAllOk rfl rfl).1,
   (claim_C4_amended cfgDefault envAllOk rfl rfl).2.1⟩

/-- C8: after the covariance phase, negotiation and post-check, the stream
configuration performs, in exactly this order: (a) write the async output
frequency, (b) write the binary-output register carrying the enabled field
groups and the computed update period, (c) write the async output
frequency again, (d) register the packet callback with the `UserData`
context carrying the device family read by `determineDeviceFamily`.  A
rejected write of the output-rate or binary-output register is fatal: the
process terminates on the uncaught exception and the callback is never
registered. -/
theorem claim_C8_stream_order (cfg : Config) (env : Env)
    (h : covPhaseOk cfg = true) :
    (env.writeFreqOk1 = true → env.writeBorOk = true → env.writeFreqOk2 = true →
      mainTrace cfg env =
        negotEvents cfg env ++ verifyEvents env ++ identityReadEvents ++
          [Event.determineDeviceFamily,
           Event.writeAsyncFreq cfg.asyncOutputRate,
           Event.writeBinaryOutput (mainBor cfg),
           Event.writeAsyncFreq cfg.asyncOutputRate,
           Event.registerHandler { device_family := env.deviceFamily }]) ∧
    (env.writeFreqOk1 = false →
      Event.abortProcess ∈ mainTrace cfg env ∧
      Event.writeBinaryOutput (mainBor cfg) ∉ mainTrace cfg env ∧
      Event.registerHandler { device_family := env.deviceFamily } ∉
        mainTrace cfg env) ∧
    (env.writeFreqOk1 = true → env.writeBorOk = false →
      Event.abortProcess ∈ mainTrace cfg env ∧
      Event.registerHandler { device_family := env.deviceFamily } ∉
        mainTrace cfg env) ∧
    (env.writeFreqOk1 = true → env.writeBorOk = true → env.writeFreqOk2 = false →
      Event.abortProcess ∈ mainTrace cfg env ∧
      Event.registerHandler { device_family := env.deviceFamily } ∉
        mainTrace cfg env) := by
  refine ⟨?_, ?_, ?_, ?_⟩
  · intro h1 h2 h3
    simp [mainTrace, h, streamConfigEvents, h1, h2, h3]
  · intro h1
    cases hv : env.verifyOk <;>
      simp [mainTrace, h, streamConfigEvents, negotEvents, verifyEvents,
        identityReadEvents, h1, hv]
  · intro h1 h2
    cases hv : env.verifyOk <;>
      simp [mainTrace, h, streamConfigEvents, negotEvents, verifyEvents,
        identityReadEvents, h1, h2, hv]
  · intro h1 h2 h3
    cases hv : env.verifyOk <;>
      simp [mainTrace, h, streamConfigEvents, negotEvents, verifyEvents,
        identityReadEvents, h1, h2, h3, hv]

/-- C8 witness: with the default configuration, a rejected first
output-rate write terminates the process. -/
theorem claim_C8_witness :
    Event.abortProcess ∈ mainTrace cfgDefault envFreqFail :=
  ((claim_C8_stream_order cfgDefault envFreqFail rfl).2.1 rfl).1

end Vectornav
